import Mathlib

/-!
Shallow embedding of `IPython/qt/client.py`: the Qt kernel-client channel
layer (QtZMQSocketChannel, IOLoopThread, QtKernelClient).  Pure data and
control flow are translated into executable Lean definitions; the
interaction with the event loop and sockets is modelled by explicit event
traces and schedule parameters.
-/

namespace IPythonQtClient

/-- errno.EINTR, the interrupted-system-call error number checked in
`IOLoopThread.run`. -/
def EINTR : Int := 4

/-- Exceptions that can come out of `self.ioloop.start()` or out of the body of
`IOLoopThread.run`.  `zmqError e` is a `zmq.ZMQError` with errno `e`;
`otherExc` is any other `Exception`; `attributeErr` is the `AttributeError`
raised by reading `self._exiting` when `_notice_exit` has never run (the
attribute is never initialized anywhere else in the class). -/
inductive LoopExc
  | zmqError (e : Int)
  | otherExc
  | attributeErr
deriving DecidableEq, Repr

/-- Outcome of one call to `self.ioloop.start()` inside the `while True` loop
of `IOLoopThread.run`: either it returns normally or it raises. -/
inductive StartOutcome
  | normal
  | raises (e : LoopExc)
deriving DecidableEq, Repr

/-- Result of `IOLoopThread.run`: the thread function returned (`exited`),
an exception propagated out of `run` (`raised e`), or the supplied trace of
`ioloop.start()` outcomes was exhausted while the loop kept retrying
(`ranOut`). -/
inductive RunResult
  | exited
  | raised (e : LoopExc)
  | ranOut
deriving DecidableEq, Repr

/-- `IOLoopThread.run`, driven by the successive outcomes of
`self.ioloop.start()`.  `noticedExit` records whether `_notice_exit` has run
(the only write to `self._exiting`, registered with atexit).

Source:
```
while True:
    try:
        self.ioloop.start()
    except ZMQError as e:
        if e.errno == errno.EINTR:
            continue
        else:
            raise
    except Exception:
        if self._exiting:
            break
        else:
            raise
    else:
        break
```
A `raise` inside the `except ZMQError` clause propagates out of the whole
`try` statement; it is not caught by the following `except Exception`
clause.  When `_notice_exit` has never run, `self._exiting` does not exist
and evaluating `if self._exiting` raises `AttributeError`, which
propagates (chained with the original exception). -/
def IOLoopThread.run (noticedExit : Bool) : List StartOutcome → RunResult
  | [] => .ranOut
  | .normal :: _ => .exited
  | .raises (.zmqError e) :: rest =>
      if e = EINTR then IOLoopThread.run noticedExit rest
      else .raised (.zmqError e)
  | .raises _ :: _ =>
      if noticedExit then .exited else .raised .attributeErr

/-- State of a `QtZMQSocketChannel`.  Sockets, sessions and streams are
opaque handles. -/
structure ChannelState where
  socket : Option Nat
  session : Nat
  stream : Nat
  _is_alive : Bool
deriving DecidableEq, Repr

/-- `QtZMQSocketChannel.__init__`: stores the socket, session and loop and
wraps the socket in a stream; the class attribute `_is_alive = False` means
a fresh channel is not alive. -/
def ChannelState.init (sock sess strm : Nat) : ChannelState :=
  { socket := some sock, session := sess, stream := strm, _is_alive := false }

/-- `QtZMQSocketChannel.is_alive`: `return self._is_alive`. -/
def ChannelState.is_alive (st : ChannelState) : Bool := st._is_alive

/-- `QtZMQSocketChannel.start`: `self._is_alive = True`. -/
def ChannelState.start (st : ChannelState) : ChannelState :=
  { st with _is_alive := true }

/-- `QtZMQSocketChannel.stop`: `self._is_alive = False`. -/
def ChannelState.stop (st : ChannelState) : ChannelState :=
  { st with _is_alive := false }

/-- A start/stop lifecycle call on a channel. -/
inductive LifecycleOp
  | startOp
  | stopOp
deriving DecidableEq, Repr

/-- Apply a sequence of start/stop calls to a channel state. -/
def ChannelState.applyOps (st : ChannelState) : List LifecycleOp → ChannelState
  | [] => st
  | .startOp :: rest => ChannelState.applyOps st.start rest
  | .stopOp :: rest => ChannelState.applyOps st.stop rest

/-- Result of `QtZMQSocketChannel.close`: the new channel state, the list of
socket-release operations performed (socket handle together with the linger
value passed), and whether an exception escaped to the caller. -/
structure CloseResult where
  state : ChannelState
  releases : List (Nat × Nat)
  raised : Bool
deriving DecidableEq, Repr

/-- `QtZMQSocketChannel.close`:
```
if self.socket is not None:
    try:
        self.socket.close(linger=0)
    except Exception:
        pass
    self.socket = None
```
`releaseRaises` says whether the underlying `socket.close(linger=0)` call
raises; the `except Exception: pass` swallows it either way. -/
def ChannelState.close (st : ChannelState) (_releaseRaises : Bool) : CloseResult :=
  match st.socket with
  | some s => { state := { st with socket := none }, releases := [(s, 0)], raised := false }
  | none => { state := st, releases := [], raised := false }

/-- A callback queued on the ioloop via `IOLoop.add_callback`.
`threadSend sess strm m` is the `thread_send` closure of
`QtZMQSocketChannel.send`, which performs `self.session.send(self.stream, msg)`
on the loop thread. -/
inductive LoopCallback
  | threadSend (sess strm msg : Nat)
deriving DecidableEq, Repr

/-- Result of `QtZMQSocketChannel.send`: the channel state after the call,
the callbacks queued onto the owning ioloop, and the transmissions
performed directly on the calling thread. -/
structure SendResult where
  state : ChannelState
  scheduled : List LoopCallback
  callerThreadSends : List Nat
deriving DecidableEq, Repr

/-- `QtZMQSocketChannel.send`:
```
def thread_send():
    self.session.send(self.stream, msg)
self.ioloop.add_callback(thread_send)
```
The only effect on the calling thread is queuing `thread_send`; the
session encode and stream write happen inside the callback, on the loop
thread. -/
def ChannelState.send (st : ChannelState) (msg : Nat) : SendResult :=
  { state := st
    scheduled := [.threadSend st.session st.stream msg]
    callerThreadSends := [] }

/-- Whether `self._flushed` is observed true at time `t` (time measured in
hundredths of a second, the granularity of the `time.sleep(0.01)` poll),
given that the loop thread runs this round's `_flush` callback (which sets
the flag) at time `flushAt`; `none` means the callback never runs before the
caller gives up. -/
def flushed (flushAt : Option Nat) (t : Nat) : Bool :=
  match flushAt with
  | some s => decide (s ≤ t)
  | none => false

/-- The inner polling loop of `QtZMQSocketChannel.flush`,
`while not self._flushed and time.time() < stop_time: time.sleep(0.01)`,
with `fuel = stop_time - t` sleeps remaining before the deadline.  Returns
the time at which the loop exits. -/
def pollAux (flushAt : Option Nat) : Nat → Nat → Nat
  | t, 0 => t
  | t, fuel + 1 => if flushed flushAt t then t else pollAux flushAt (t + 1) fuel

/-- One round of `QtZMQSocketChannel.flush`: clear `self._flushed`, queue
`self._flush` on the loop, then poll every hundredth of a second until the
flag is set or the shared deadline `stopTime` passes. -/
def pollRound (stopTime : Nat) (flushAt : Option Nat) (t : Nat) : Nat :=
  pollAux flushAt t (stopTime - t)

/-- `QtZMQSocketChannel.flush`:
```
stop_time = time.time() + timeout
for i in range(2):
    self._flushed = False
    self.ioloop.add_callback(self._flush)
    while not self._flushed and time.time() < stop_time:
        time.sleep(0.01)
```
`sched i` is the time at which the `_flush` callback queued in round `i`
runs on the loop thread and sets the flag (`none` if it never does).  Both
rounds share the single deadline `now + timeout`.  Returns the time at
which `flush` returns to its caller. -/
def flush (now timeout : Nat) (sched : Nat → Option Nat) : Nat :=
  let stopTime := now + timeout
  pollRound stopTime (sched 1) (pollRound stopTime (sched 0) now)

/-- A message as seen by `_check_kernel_info_reply`: its `msg_type` field and
an opaque body distinguishing individual messages. -/
structure Msg where
  msg_type : String
  body : Nat
deriving DecidableEq, Repr

/-- `QtKernelClient._check_kernel_info_reply`, run over a sequence of
messages delivered on the shell channel's `message_received` signal.  The
Boolean records whether the intercept is currently connected to the
signal.  Returns the messages on which `self._handle_kernel_info_reply`
fired:
```
def _check_kernel_info_reply(self, msg):
    if msg['msg_type'] == 'kernel_info_reply':
        self._handle_kernel_info_reply(msg)
        self.shell_channel.message_received.disconnect(self._check_kernel_info_reply)
```
When the intercept is disconnected it is simply not invoked for later
messages. -/
def deliverShell : Bool → List Msg → List Msg
  | _, [] => []
  | true, m :: rest =>
      if m.msg_type = "kernel_info_reply" then m :: deliverShell false rest
      else deliverShell true rest
  | false, _ :: rest => deliverShell false rest

/-- The four logical channels of a `QtKernelClient`. -/
inductive ChannelKind
  | shell
  | iopub
  | stdin
  | hb
deriving DecidableEq, Repr

/-- All four channel kinds. -/
def ChannelKind.all : List ChannelKind := [.shell, .iopub, .stdin, .hb]

/-- Observable events of the client lifecycle methods, in program order. -/
inductive Event
  | connectKernelInfoIntercept
  | loopThreadCreate
  | loopThreadStart
  | channelConstruct (c : ChannelKind)
  | channelStart (c : ChannelKind)
  | channelStop (c : ChannelKind)
  | channelClose (c : ChannelKind)
  | loopSignalStop
  | threadJoin
  | loopClose (all_fds : Bool)
  | loopThreadStop
deriving DecidableEq, Repr

/-- `tr.indexOf a < tr.indexOf b`: event `a` occurs strictly before event
`b` in trace `tr` (with absent events counting as at the end). -/
def precedesB (tr : List Event) (a b : Event) : Bool :=
  decide (tr.indexOf a < tr.indexOf b)

/-- Modelled from the spec: the base class's `start_channels` (in
`IPython.kernel`, not part of this file) constructs, for each requested
channel in {shell, iopub, stdin, heartbeat}, the channel if it has not been
lazily constructed already, and starts it.  `shellConstructed` records
whether the shell channel object already exists (its lazy property may have
been accessed earlier). -/
def superStartChannelsTrace (shellConstructed shell iopub stdin hb : Bool) :
    List Event :=
  (if shell then
    (if shellConstructed then [] else [.channelConstruct .shell]) ++
      [.channelStart .shell]
   else []) ++
  (if iopub then [.channelConstruct .iopub, .channelStart .iopub] else []) ++
  (if stdin then [.channelConstruct .stdin, .channelStart .stdin] else []) ++
  (if hb then [.channelConstruct .hb, .channelStart .hb] else [])

/-- `QtKernelClient.start_channels`:
```
if shell:
    self.shell_channel.message_received.connect(self._check_kernel_info_reply)

self.ioloop_thread = IOLoopThread(self.ioloop)
self.ioloop_thread.start()

super(QtKernelClient, self).start_channels(shell, iopub, stdin, hb)
```
Accessing `self.shell_channel` lazily constructs the shell channel, so when
`shell` is requested that construction and the intercept connection happen
first; then the loop thread is created and started; only then does the base
class start the channels. -/
def QtKernelClient.start_channels (shell iopub stdin hb : Bool) : List Event :=
  (if shell then [.channelConstruct .shell, .connectKernelInfoIntercept]
   else []) ++
  [.loopThreadCreate, .loopThreadStart] ++
  superStartChannelsTrace shell shell iopub stdin hb

/-- Modelled from the spec: the base class's `stop_channels` (in
`IPython.kernel`, not part of this file) stops each channel — it does not
close any channel's endpoint. -/
def superStopChannelsTrace : List Event :=
  [.channelStop .shell, .channelStop .iopub, .channelStop .stdin,
    .channelStop .hb]

/-- `QtKernelClient.stop_channels`:
```
super(QtKernelClient, self).stop_channels()
if self.ioloop_thread.is_alive():
    self.ioloop_thread.stop()
```
`threadAlive` is the result of `self.ioloop_thread.is_alive()`. -/
def QtKernelClient.stop_channels (threadAlive : Bool) : List Event :=
  superStopChannelsTrace ++ (if threadAlive then [.loopThreadStop] else [])

/-- Result of `IOLoopThread.stop` / `IOLoopThread.close`: the events
performed in order, and whether an exception escaped to the caller. -/
structure LoopStopResult where
  events : List Event
  raised : Bool
deriving DecidableEq, Repr

/-- `IOLoopThread.close`:
```
if self.ioloop is not None:
    try:
        self.ioloop.close(all_fds=True)
    except Exception:
        pass
```
`present` is whether `self.ioloop is not None` (after `__init__` it always
is, since `__init__` sets `self.ioloop = loop or ioloop.IOLoop()`);
`closeRaises` is whether `ioloop.close` raises — swallowed either way. -/
def IOLoopThread.close (present _closeRaises : Bool) : LoopStopResult :=
  if present then { events := [.loopClose true], raised := false }
  else { events := [], raised := false }

/-- `IOLoopThread.stop`:
```
if self.ioloop is not None:
    self.ioloop.stop()
self.join()
self.close()
``` -/
def IOLoopThread.stop (present closeRaises : Bool) : LoopStopResult :=
  { events := (if present then [.loopSignalStop] else []) ++ [.threadJoin] ++
      (IOLoopThread.close present closeRaises).events
    raised := (IOLoopThread.close present closeRaises).raised }

/-- The app-visible error this layer can raise: `InvalidPortNumber`
(defined in this file as `class InvalidPortNumber(Exception): pass`). -/
inductive CoreError
  | invalidPortNumber
deriving DecidableEq, Repr

/-- Modelled from the spec: channel construction validates the configured
port and raises `InvalidPortNumber` immediately for an invalid
(non-positive) port.  The validation itself lives in the base channel
classes outside this file; this file only defines the `InvalidPortNumber`
exception class that it raises. -/
def constructChannelWithPort (port : Int) : Except CoreError Unit :=
  if port ≤ 0 then .error .invalidPortNumber else .ok ()

/-! ## Helper lemmas -/

/-- Once `_check_kernel_info_reply` is disconnected from `message_received`,
it fires on no further message. -/
theorem deliverShell_disconnected (msgs : List Msg) :
    deliverShell false msgs = [] := by
  induction msgs with
  | nil => rfl
  | cons m rest ih => simpa [deliverShell] using ih

/-- The polling loop never runs past its fuel: it exits within `fuel`
sleeps. -/
theorem pollAux_le (fa : Option Nat) :
    ∀ fuel t, pollAux fa t fuel ≤ t + fuel := by
  intro fuel
  induction fuel with
  | zero => intro t; simp [pollAux]
  | succ n ih =>
      intro t
      simp only [pollAux]
      split
      · exact Nat.le_add_right t (n + 1)
      · have h := ih (t + 1)
        omega

/-- The polling loop exits no earlier than it entered. -/
theorem pollAux_ge (fa : Option Nat) :
    ∀ fuel t, t ≤ pollAux fa t fuel := by
  intro fuel
  induction fuel with
  | zero => intro t; simp [pollAux]
  | succ n ih =>
      intro t
      simp only [pollAux]
      split
      · exact Nat.le_refl t
      · have h := ih (t + 1)
        omega

/-- With the `_flush` callback never running, the polling loop exhausts all
its fuel. -/
theorem pollAux_none (fuel : Nat) : ∀ t, pollAux none t fuel = t + fuel := by
  induction fuel with
  | zero => intro t; simp [pollAux]
  | succ n ih =>
      intro t
      have h := ih (t + 1)
      simp only [pollAux, flushed] at h ⊢
      simp only [Bool.false_eq_true, if_false]
      omega

/-- Applying a concatenated sequence of lifecycle calls is applying them in
two stages. -/
theorem applyOps_append (st : ChannelState) (xs ys : List LifecycleOp) :
    st.applyOps (xs ++ ys) = (st.applyOps xs).applyOps ys := by
  induction xs generalizing st with
  | nil => rfl
  | cons x xs ih => cases x <;> simp [ChannelState.applyOps, ih]

/-- One polling round never overruns the shared deadline it starts below. -/
theorem pollRound_le (stopTime : Nat) (fa : Option Nat) (t : Nat)
    (h : t ≤ stopTime) : pollRound stopTime fa t ≤ stopTime := by
  have hb := pollAux_le fa (stopTime - t) t
  unfold pollRound
  omega

/-! ## Claim theorems -/

/-- C1, counterexample: calling `start_channels` with all four channels
requested starts the loop thread before the iopub channel is started (the
iopub channel's start event occurs in the trace, strictly after the loop
thread's start event, not before) — refuting the claim that each requested
channel is constructed and started before the LoopThread is started. -/
theorem start_channels_loop_starts_before_channels :
    (Event.channelStart .iopub) ∈ QtKernelClient.start_channels true true true true ∧
    precedesB (QtKernelClient.start_channels true true true true)
      .loopThreadStart (.channelStart .iopub) = true ∧
    precedesB (QtKernelClient.start_channels true true true true)
      (.channelStart .iopub) .loopThreadStart = false := by
  decide

/-- C1, amended: in `start_channels`, when the shell channel is requested it
is constructed and the kernel-info intercept is registered on its delivery
path before the loop thread is started; the loop thread is started before
every requested channel is started. -/
theorem start_channels_intercept_before_loop
    (shell iopub stdin hb : Bool) :
    (shell = true →
      precedesB (QtKernelClient.start_channels shell iopub stdin hb)
        .connectKernelInfoIntercept .loopThreadStart = true ∧
      precedesB (QtKernelClient.start_channels shell iopub stdin hb)
        (.channelConstruct .shell) .loopThreadStart = true) ∧
    (ChannelKind.all.all (fun c =>
      !((QtKernelClient.start_channels shell iopub stdin hb).contains
          (.channelStart c)) ||
        precedesB (QtKernelClient.start_channels shell iopub stdin hb)
          .loopThreadStart (.channelStart c))) = true := by
  cases shell <;> cases iopub <;> cases stdin <;> cases hb <;> decide

/-- C1, witness for the amended theorem at the all-channels call. -/
theorem start_channels_intercept_before_loop_witness :
    precedesB (QtKernelClient.start_channels true true true true)
      .connectKernelInfoIntercept .loopThreadStart = true :=
  ((start_channels_intercept_before_loop true true true true).1 rfl).1

/-- C2, counterexample: with the process-level exit flag set, a ZMQError
whose errno is 98 (EADDRINUSE, not EINTR) still propagates out of
`IOLoopThread.run` — the `raise` in the `except ZMQError` clause bypasses
the `except Exception` clause that checks `self._exiting` — so the thread
does not exit silently as the claim states. -/
theorem run_nonEINTR_zmqerror_raises_despite_exit_flag :
    IOLoopThread.run true [.raises (.zmqError 98)] = .raised (.zmqError 98) ∧
    (98 : Int) ≠ EINTR ∧
    IOLoopThread.run true [.raises (.zmqError 98)] ≠ .exited := by
  decide

/-- C2, amended: a ZMQError with errno EINTR causes the loop to be
restarted; a ZMQError with any other errno propagates out of `run`
regardless of the exit flag; any other exception makes the thread exit
silently when the exit flag has been set, and otherwise an exception
propagates out of `run` (an AttributeError from reading the
never-initialized `_exiting` attribute, chained with the original); a
normal return of `ioloop.start` ends the thread. -/
theorem run_exception_policy (noticedExit : Bool)
    (rest : List StartOutcome) (e : Int) :
    IOLoopThread.run noticedExit (.raises (.zmqError EINTR) :: rest) =
      IOLoopThread.run noticedExit rest ∧
    (e ≠ EINTR →
      IOLoopThread.run noticedExit (.raises (.zmqError e) :: rest) =
        .raised (.zmqError e)) ∧
    IOLoopThread.run true (.raises .otherExc :: rest) = .exited ∧
    IOLoopThread.run false (.raises .otherExc :: rest) =
      .raised .attributeErr ∧
    IOLoopThread.run noticedExit (.normal :: rest) = .exited := by
  refine ⟨by simp [IOLoopThread.run], fun h => by simp [IOLoopThread.run, h],
    rfl, rfl, rfl⟩

/-- C2, witness for the amended theorem: errno 11 (EAGAIN) is not EINTR and
the error propagates. -/
theorem run_exception_policy_witness :
    IOLoopThread.run true [.raises (.zmqError 11)] =
      .raised (.zmqError 11) :=
  (run_exception_policy true [] 11).2.1 (by decide)

/-- C3: construction with the invalid port 0 fails immediately with
`InvalidPortNumber`, and no other modelled operation of the core reports an
error to the caller: channel `close` and the loop thread's `stop`/`close`
never let an exception escape. -/
theorem only_construction_raises :
    constructChannelWithPort 0 = .error .invalidPortNumber ∧
    (∀ (st : ChannelState) (r : Bool), (st.close r).raised = false) ∧
    (∀ p c : Bool, (IOLoopThread.close p c).raised = false) ∧
    (∀ p c : Bool, (IOLoopThread.stop p c).raised = false) := by
  refine ⟨rfl, ?_, ?_, ?_⟩
  · intro st r
    rcases st with ⟨sock, sess, strm, al⟩
    cases sock <;> rfl
  · intro p c
    cases p <;> rfl
  · intro p c
    cases p <;> rfl

/-- C4: over any sequence of messages delivered on the shell channel, the
kernel-info intercept fires `_handle_kernel_info_reply` exactly on the
first message whose `msg_type` is `kernel_info_reply` (so exactly once if
one occurs, never otherwise), and once disconnected it never fires again. -/
theorem intercept_fires_exactly_once (msgs : List Msg) :
    deliverShell true msgs =
      (msgs.filter (fun m => decide (m.msg_type = "kernel_info_reply"))).take 1 ∧
    deliverShell false msgs = [] := by
  refine ⟨?_, deliverShell_disconnected msgs⟩
  induction msgs with
  | nil => rfl
  | cons m rest ih =>
      by_cases h : m.msg_type = "kernel_info_reply"
      · simp [deliverShell, h, deliverShell_disconnected]
      · simpa [deliverShell, h] using ih

/-- C5: `flush` is exactly two polling rounds sharing the single deadline
`now + timeout`; it terminates and returns at a time no later than the
deadline, whatever the loop does with the two scheduled drain callbacks;
and when the drain callbacks never run it returns exactly at the
deadline. -/
theorem flush_two_rounds_bounded (now timeout : Nat)
    (sched : Nat → Option Nat) :
    flush now timeout sched =
      pollRound (now + timeout) (sched 1)
        (pollRound (now + timeout) (sched 0) now) ∧
    now ≤ flush now timeout sched ∧
    flush now timeout sched ≤ now + timeout ∧
    flush now timeout (fun _ => none) = now + timeout := by
  have h1 : pollRound (now + timeout) (sched 0) now ≤ now + timeout :=
    pollRound_le _ _ _ (Nat.le_add_right now timeout)
  have h2 : flush now timeout sched ≤ now + timeout :=
    pollRound_le _ _ _ h1
  have h3 : now ≤ pollRound (now + timeout) (sched 0) now :=
    pollAux_ge _ _ _
  have h4 : pollRound (now + timeout) (sched 0) now ≤ flush now timeout sched :=
    pollAux_ge _ _ _
  refine ⟨rfl, Nat.le_trans h3 h4, h2, ?_⟩
  have ha : pollRound (now + timeout) none now = now + timeout := by
    unfold pollRound
    rw [pollAux_none]
    omega
  have hb : pollRound (now + timeout) none (now + timeout) = now + timeout := by
    unfold pollRound
    rw [Nat.sub_self]
    rfl
  show pollRound (now + timeout) none (pollRound (now + timeout) none now) =
    now + timeout
  rw [ha, hb]

/-- C6: `close` is idempotent and never raises: the first call performs a
single release of the socket with linger 0 (when one is present), swallows
any release error, and clears the socket reference; a second call performs
no release, raises nothing, and leaves the state unchanged. -/
theorem close_idempotent_never_raises (st : ChannelState) (r₁ r₂ : Bool) :
    (st.close r₁).raised = false ∧
    (st.close r₁).state.socket = none ∧
    (st.close r₁).releases =
      (match st.socket with | some s => [(s, 0)] | none => []) ∧
    ((st.close r₁).state.close r₂).raised = false ∧
    ((st.close r₁).state.close r₂).releases = [] ∧
    ((st.close r₁).state.close r₂).state = (st.close r₁).state := by
  rcases st with ⟨sock, sess, strm, al⟩
  cases sock <;> simp [ChannelState.close]

/-- C7: `IOLoopThread.stop` performs, in order, the loop stop signal, the
thread join, and the loop close releasing all registered file descriptors,
and neither `stop` nor `close` lets an exception from the close escape. -/
theorem loop_thread_stop_order (closeRaises : Bool) :
    (IOLoopThread.stop true closeRaises).events =
      [.loopSignalStop, .threadJoin, .loopClose true] ∧
    (IOLoopThread.stop true closeRaises).raised = false ∧
    (IOLoopThread.close true closeRaises).raised = false := by
  exact ⟨rfl, rfl, rfl⟩

/-- C8: `stop_channels` stops all four channels before any action on the
loop thread, stops the loop thread exactly when it is alive, and releases
no channel endpoint. -/
theorem stop_channels_order (threadAlive : Bool) :
    ((QtKernelClient.stop_channels threadAlive).contains .loopThreadStop)
      = threadAlive ∧
    ((QtKernelClient.stop_channels threadAlive).all
      (fun e => match e with | .channelClose _ => false | _ => true)) = true ∧
    (ChannelKind.all.all (fun c =>
      (QtKernelClient.stop_channels threadAlive).contains (.channelStop c) &&
        (!threadAlive ||
          precedesB (QtKernelClient.stop_channels threadAlive)
            (.channelStop c) .loopThreadStop))) = true := by
  cases threadAlive <;> decide

/-- C9: `send` transmits nothing on the calling thread: it queues exactly
one callback onto the owning loop — the closure performing
`session.send(stream, msg)` with the channel's session and stream — and
leaves every field of the channel unchanged. -/
theorem send_schedules_one_callback (st : ChannelState) (msg : Nat) :
    (st.send msg).state = st ∧
    (st.send msg).scheduled =
      [.threadSend st.session st.stream msg] ∧
    (st.send msg).scheduled.length = 1 ∧
    (st.send msg).callerThreadSends = [] := by
  exact ⟨rfl, rfl, rfl, rfl⟩

/-- C10: a freshly constructed channel is not alive; `start` and `stop` are
idempotent, touch only the alive flag, and after any sequence of lifecycle
calls `is_alive` is true exactly when the most recent call was `start`. -/
theorem channel_alive_flag (sock sess strm : Nat) (st : ChannelState)
    (ops : List LifecycleOp) :
    (ChannelState.init sock sess strm).is_alive = false ∧
    st.start.start = st.start ∧ st.stop.stop = st.stop ∧
    st.start.socket = st.socket ∧ st.start.session = st.session ∧
    st.start.stream = st.stream ∧ st.start.is_alive = true ∧
    st.stop.socket = st.socket ∧ st.stop.session = st.session ∧
    st.stop.stream = st.stream ∧ st.stop.is_alive = false ∧
    (st.applyOps ops).is_alive =
      (match ops.getLast? with
        | some .startOp => true
        | some .stopOp => false
        | none => st.is_alive) := by
  refine ⟨rfl, rfl, rfl, rfl, rfl, rfl, rfl, rfl, rfl, rfl, rfl, ?_⟩
  induction ops using List.reverseRecOn with
  | nil => rfl
  | append_singleton xs op ih =>
      rw [applyOps_append, List.getLast?_concat]
      cases op <;>
        simp [ChannelState.applyOps, ChannelState.start, ChannelState.stop,
          ChannelState.is_alive]

end IPythonQtClient
